import Mathlib

/-!
Verification of the answer-evaluation engine of the `slam-backend`
repository (file `evaluate-answer.ts`): expression normalizer, numeric
evaluator, algebraic term decomposer, equivalence resolver, misconception
detector, scoring engine and evaluation orchestrator.

Modelling conventions for the JavaScript source:
* JS `number` values are modelled by `JSNum`: an exact rational (`fin`),
  a signed infinity (`inf`), or `nan`.  IEEE doubles are modelled by exact
  rationals; negative zero is identified with zero.  The literal doubles
  `Math.PI` / `Math.E` are modelled by the 15-significant-digit rationals
  of their JS decimal printout (the source substitutes `String(Math.PI)`
  and `String(Math.E)` textually, so this is exact for the rewritten
  strings).  `Math.sqrt` is modelled by a rational approximation that is
  exact on perfect squares (`ratSqrt`); non-integer exponents of `**` and
  legacy octal literals are not exercised by any verified input and are
  modelled conservatively (see `JSNum.pow`, `lexGo`).
* JS strings are Lean `String`s; the regular expressions of the source are
  implemented as explicit character scans that follow the JS regex
  semantics (left-to-right, global, no rescan of replaced text).
* Throwing JS code is modelled by `Except Unit`; `null`/`undefined` by
  `Option`.  The `new Function` evaluator is modelled as a closed
  arithmetic evaluator; identifier-bearing strings, which in the source
  reach the realm's mutable global environment through the
  `Math.`-containment gate, are modelled as a throw (see the scope note on
  `genericEval`).
-/

/-- Exact rational numbers in canonical form: a reduced numerator together
with the predecessor of the (hence always positive) denominator.  The
library `Rat` operations are `@[irreducible]` and invisible to the kernel,
so the model carries its own rational arithmetic, written entirely with
kernel-evaluable `Int`/`Nat` operations.  `QF` models finite JS doubles. -/
structure QF where
  num : ℤ
  dpred : ℕ
  deriving DecidableEq, Repr

/-- The (always positive) denominator. -/
def QF.den (a : QF) : ℕ := a.dpred + 1

/-- The canonical representative of `n / d` (callers guarantee `d ≠ 0`;
`d = 0` defensively gives `0`). -/
def QF.mk' (n d : ℤ) : QF :=
  if d = 0 then ⟨0, 0⟩
  else
    let n' := if d < 0 then -n else n
    let dn := d.natAbs
    let g := Nat.gcd n'.natAbs dn
    ⟨Int.tdiv n' g, dn / g - 1⟩

def QF.ofNat (n : ℕ) : QF := ⟨(n : ℤ), 0⟩

def QF.ofInt (n : ℤ) : QF := ⟨n, 0⟩

instance (n : ℕ) : OfNat QF n := ⟨QF.ofNat n⟩

instance : Neg QF := ⟨fun a => ⟨-a.num, a.dpred⟩⟩

instance : Add QF :=
  ⟨fun a b => QF.mk' (a.num * (b.den : ℤ) + b.num * (a.den : ℤ)) ((a.den : ℤ) * (b.den : ℤ))⟩

instance : Mul QF := ⟨fun a b => QF.mk' (a.num * b.num) ((a.den : ℤ) * (b.den : ℤ))⟩

instance : Sub QF := ⟨fun a b => a + -b⟩

instance : Div QF := ⟨fun a b => QF.mk' (a.num * (b.den : ℤ)) ((a.den : ℤ) * b.num)⟩

instance : LT QF := ⟨fun a b => a.num * (b.den : ℤ) < b.num * (a.den : ℤ)⟩

instance : LE QF := ⟨fun a b => a.num * (b.den : ℤ) ≤ b.num * (a.den : ℤ)⟩

instance (a b : QF) : Decidable (a < b) :=
  inferInstanceAs (Decidable (a.num * (b.den : ℤ) < b.num * (a.den : ℤ)))

instance (a b : QF) : Decidable (a ≤ b) :=
  inferInstanceAs (Decidable (a.num * (b.den : ℤ) ≤ b.num * (a.den : ℤ)))

/-- Value-based test against an integer (JS number equality is by value,
independent of the fraction representation). -/
def QF.eqInt (a : QF) (k : ℤ) : Bool := decide (a.num = k * (a.den : ℤ))

/-- Value-based zero test (JS falsiness of a number). -/
def QF.isZero (a : QF) : Bool := decide (a.num = 0)

def qabs (q : QF) : QF := if q.num < 0 then ⟨-q.num, q.dpred⟩ else q

/-- Natural power, plain recursion. -/
def qnpow (a : QF) : ℕ → QF
  | 0 => 1
  | n + 1 => qnpow a n * a

/-- Integer power; callers guard `0 ^ negative`. -/
def qzpow (a : QF) (n : ℤ) : QF :=
  if 0 ≤ n then qnpow a n.toNat else 1 / qnpow a (-n).toNat

/-- Floor of a rational. -/
def ratFloor (q : QF) : ℤ := Int.fdiv q.num (q.den : ℤ)

/-- Newton iteration for the integer square root; each step strictly
decreases the iterate, so fuel `n` always suffices. -/
def isqrtGo : ℕ → ℕ → ℕ → ℕ
  | 0, _, x => x
  | fuel + 1, n, x =>
      let next := (x + n / x) / 2
      if next < x then isqrtGo fuel n next else x

/-- Integer square root (`⌊√n⌋`, the `Nat.sqrt` algorithm with explicit
fuel so that the kernel can evaluate it). -/
def isqrt (n : ℕ) : ℕ := if n ≤ 1 then n else isqrtGo n n n

/-- The rational value of a `QF` (used only in proofs, never computed). -/
def QF.toQ (a : QF) : ℚ := (a.num : ℚ) / ((a.den : ℕ) : ℚ)

/-- The canonical-form invariant: numerator and denominator coprime.
Every `QF` built by `QF.mk'` (hence by the arithmetic) satisfies it. -/
def QF.normalized (a : QF) : Prop := Nat.gcd a.num.natAbs a.den = 1

/-- Model of a JavaScript `number`: finite (exact rational), ±Infinity, NaN. -/
inductive JSNum where
  | fin (q : QF)
  | inf (pos : Bool)
  | nan
  deriving DecidableEq, Repr

namespace JSNum

/-- JS truthiness of a number: `0` and `NaN` are falsy. -/
def truthy : JSNum → Bool
  | fin q => !q.isZero
  | inf _ => true
  | nan => false

/-- JS `=== 0` (value-based). -/
def isZero : JSNum → Bool
  | fin q => q.isZero
  | inf _ => false
  | nan => false

def neg : JSNum → JSNum
  | fin q => fin (-q)
  | inf p => inf (!p)
  | nan => nan

def add : JSNum → JSNum → JSNum
  | nan, _ => nan
  | _, nan => nan
  | inf p, inf q => if p = q then inf p else nan
  | inf p, fin _ => inf p
  | fin _, inf q => inf q
  | fin a, fin b => fin (a + b)

end JSNum

namespace JSNum

def sub (a b : JSNum) : JSNum := add a (neg b)

def mul : JSNum → JSNum → JSNum
  | nan, _ => nan
  | _, nan => nan
  | inf p, inf q => inf (p = q)
  | inf p, fin b => if b.isZero then nan else inf (p = decide ((0 : QF) < b))
  | fin a, inf q => if a.isZero then nan else inf (q = decide ((0 : QF) < a))
  | fin a, fin b => fin (a * b)

def div : JSNum → JSNum → JSNum
  | nan, _ => nan
  | _, nan => nan
  | inf _, inf _ => nan
  | fin _, inf _ => fin 0
  | inf p, fin b => if b.isZero then inf p else inf (p = decide ((0 : QF) < b))
  | fin a, fin b =>
      if b.isZero then (if a.isZero then nan else inf (decide ((0 : QF) < a)))
      else fin (a / b)

def abs : JSNum → JSNum
  | fin q => fin (qabs q)
  | inf _ => inf true
  | nan => nan

/-- JS `<` (false on NaN). -/
def ltB : JSNum → JSNum → Bool
  | nan, _ => false
  | _, nan => false
  | fin a, fin b => decide (a < b)
  | fin _, inf p => p
  | inf p, fin _ => !p
  | inf p, inf q => !p && q

/-- JS `<=` (false on NaN). -/
def leB : JSNum → JSNum → Bool
  | nan, _ => false
  | _, nan => false
  | fin a, fin b => decide (a ≤ b)
  | fin _, inf p => p
  | inf p, fin _ => !p
  | inf p, inf q => !p || q

def gtB (a b : JSNum) : Bool := ltB b a

end JSNum

/-- JS `Math.round`: nearest integer, half toward `+∞` (as a rational). -/
def jsRound (q : QF) : QF := QF.ofInt (ratFloor (q + QF.mk' 1 2))

/-- Rational approximation of the square root, exact on perfect squares
(the only inputs at which a verified claim inspects the value). -/
def ratSqrt (q : QF) : QF :=
  let s : ℕ := 10 ^ 12
  QF.mk' (isqrt (q.num.toNat * q.den * s * s)) ((q.den * s : ℕ) : ℤ)

/-- Model of JS `Math.sqrt` on `JSNum` (negative argument gives `NaN`). -/
def JSNum.sqrt : JSNum → JSNum
  | JSNum.nan => JSNum.nan
  | JSNum.inf p => if p then JSNum.inf true else JSNum.nan
  | JSNum.fin q => if q.num < 0 then JSNum.nan else JSNum.fin (ratSqrt q)

/-- Model of JS `**`.  Integer exponents are exact; `0` to a negative power
is `Infinity` as in JS.  Non-integer exponents are not exercised by any
verified input and are conservatively modelled as `NaN`. -/
def JSNum.pow : JSNum → JSNum → JSNum
  | JSNum.nan, _ => JSNum.nan
  | _, JSNum.nan => JSNum.nan
  | JSNum.fin a, JSNum.fin b =>
      if b.dpred = 0 then
        if a.isZero && decide (b.num < 0) then JSNum.inf true
        else JSNum.fin (qzpow a b.num)
      else JSNum.nan
  | JSNum.fin a, JSNum.inf p =>
      if qabs a = 1 then JSNum.nan
      else if decide ((1 : QF) < qabs a) = p then JSNum.inf true else JSNum.fin 0
  | JSNum.inf p, JSNum.fin b =>
      if b.isZero then JSNum.fin 1
      else if (0 : QF) < b then (if p then JSNum.inf true else JSNum.nan)
      else JSNum.fin 0
  | JSNum.inf _, JSNum.inf q => if q then JSNum.inf true else JSNum.fin 0

/-- The rational value of the 15-digit decimal printout of `Math.PI`
(`String(Math.PI) = "3.141592653589793"`). -/
def piQ : QF := QF.mk' 3141592653589793 1000000000000000

/-- The rational value of the 15-digit decimal printout of `Math.E`
(`String(Math.E) = "2.718281828459045"`). -/
def eQ : QF := QF.mk' 2718281828459045 1000000000000000

-- ===========================================================================
-- Character helpers
-- ===========================================================================

def isDigitChar (c : Char) : Bool := '0' ≤ c && c ≤ '9'

def isLowerChar (c : Char) : Bool := 'a' ≤ c && c ≤ 'z'

def isUpperChar (c : Char) : Bool := 'A' ≤ c && c ≤ 'Z'

/-- An ASCII letter (the `/[a-z]/i` class of the source). -/
def isAlphaChar (c : Char) : Bool := isLowerChar c || isUpperChar c

/-- A JS `\w` word character. -/
def isWordChar (c : Char) : Bool := isAlphaChar c || isDigitChar c || c = '_'

/-- A JS `\s` whitespace character (the ones that can occur in answers). -/
def isWsChar (c : Char) : Bool :=
  c = ' ' || c = '\t' || c = '\n' || c = '\r' || c = '\x0b' || c = '\x0c'

/-- JS `toLowerCase` restricted to the characters the engine manipulates
(ASCII letters; the capital pi glyph). -/
def lowerChar (c : Char) : Char :=
  if isUpperChar c then Char.ofNat (c.toNat + 32) else if c = 'Π' then 'π' else c

def digitsToNat (ds : List Char) : ℕ :=
  ds.foldl (fun n c => 10 * n + (c.toNat - '0'.toNat)) 0

-- ===========================================================================
-- Expression Normalizer (`normalizeExpression`)
-- ===========================================================================

/-- The chained single-glyph replacements of `normalizeExpression`
(`× ÷ − · ² ³ √ π` to their ASCII forms). -/
def glyphExpand (c : Char) : List Char :=
  if c = '×' then ['*']
  else if c = '÷' then ['/']
  else if c = '−' then ['-']
  else if c = '·' then ['*']
  else if c = '²' then ['^', '2']
  else if c = '³' then ['^', '3']
  else if c = '√' then ['s', 'q', 'r', 't']
  else if c = 'π' then ['p', 'i']
  else [c]

/-- `replace(/(\d)([a-z])/gi, '$1*$2')`: insert `*` between a digit and a
letter (matches cannot overlap, so a pairwise scan is the regex result). -/
def insertImplicitMul : List Char → List Char
  | c :: d :: rest =>
      if isDigitChar c && isAlphaChar d then c :: '*' :: insertImplicitMul (d :: rest)
      else c :: insertImplicitMul (d :: rest)
  | l => l

/-- `normalizeExpression`: trim+lowercase, drop all whitespace, unify glyphs,
strip one leading `+`, insert implicit multiplication. -/
def normalizeExpression (expr : String) : String :=
  let cs := (expr.data.map lowerChar).filter (fun c => !isWsChar c)
  let expanded := cs.flatMap glyphExpand
  let stripped := match expanded with
    | '+' :: rest => rest
    | l => l
  String.mk (insertImplicitMul stripped)

-- ===========================================================================
-- Numeric Evaluator (`evaluateToNumber`) — rewrite passes
-- ===========================================================================

/-- `replace(/pi/g, String(Math.PI))`. -/
def replacePi : List Char → List Char
  | 'p' :: 'i' :: rest => "3.141592653589793".data ++ replacePi rest
  | c :: rest => c :: replacePi rest
  | [] => []

/-- `replace(/e(?![a-z])/g, String(Math.E))`: an `e` not followed by a
lowercase letter becomes the printed constant. -/
def replaceE : List Char → List Char
  | 'e' :: rest =>
      match rest with
      | d :: _ =>
          if isLowerChar d then 'e' :: replaceE rest
          else "2.718281828459045".data ++ replaceE rest
      | [] => "2.718281828459045".data
  | c :: rest => c :: replaceE rest
  | [] => []

/-- `replace(/sqrt\(([^)]+)\)/g, 'Math.sqrt($1)')`, scanning left to right
without rescanning replaced text; the fuel is an upper bound on the input
length, and every step consumes at least one character. -/
def replaceSqrtGo : ℕ → List Char → List Char
  | 0, _ => []
  | _ + 1, [] => []
  | fuel + 1, 's' :: 'q' :: 'r' :: 't' :: '(' :: rest =>
      let inner := rest.takeWhile (fun c => c ≠ ')')
      let tail := rest.dropWhile (fun c => c ≠ ')')
      match tail with
      | ')' :: rest' =>
          if inner = [] then 's' :: replaceSqrtGo fuel ('q' :: 'r' :: 't' :: '(' :: rest)
          else "Math.sqrt(".data ++ inner ++ ')' :: replaceSqrtGo fuel rest'
      | _ => 's' :: replaceSqrtGo fuel ('q' :: 'r' :: 't' :: '(' :: rest)
  | fuel + 1, c :: rest => c :: replaceSqrtGo fuel rest

def replaceSqrt (cs : List Char) : List Char := replaceSqrtGo (cs.length + 1) cs

/-- `replace(/\^/g, '**')`. -/
def replaceCaret (cs : List Char) : List Char :=
  cs.flatMap (fun c => if c = '^' then ['*', '*'] else [c])

/-- The full rewrite `normalizeExpression` + constants + `sqrt` + `^` that
`evaluateToNumber` performs before deciding how to evaluate. -/
def rewrittenForm (expr : String) : String :=
  String.mk (replaceCaret (replaceSqrt (replaceE (replacePi (normalizeExpression expr).data))))

-- ===========================================================================
-- Numeric Evaluator — parseFloat, gates
-- ===========================================================================

/-- Model of JS `parseFloat`: longest numeric prefix, `none` for `NaN`.
(`Infinity` needs a capital `I`, which cannot survive normalization, so it
is not modelled.) -/
def jparseFloat (s : String) : Option QF :=
  let cs := s.data.dropWhile isWsChar
  let signAndRest : QF × List Char :=
    match cs with
    | '+' :: r => (1, r)
    | '-' :: r => (-1, r)
    | r => (1, r)
  let sign := signAndRest.1
  let d1 := signAndRest.2.takeWhile isDigitChar
  let cs2 := signAndRest.2.dropWhile isDigitChar
  let fracAndRest : List Char × List Char :=
    match cs2 with
    | '.' :: r => (r.takeWhile isDigitChar, r.dropWhile isDigitChar)
    | r => ([], r)
  let d2 := fracAndRest.1
  if d1 = [] ∧ d2 = [] then Option.none
  else
    let mantissa : QF :=
      QF.ofNat (digitsToNat d1) + QF.ofNat (digitsToNat d2) / QF.ofNat (10 ^ d2.length)
    let expVal : ℤ :=
      match fracAndRest.2 with
      | c :: r =>
          if c = 'e' ∨ c = 'E' then
            let esAndRest : ℤ × List Char :=
              match r with
              | '+' :: rr => (1, rr)
              | '-' :: rr => (-1, rr)
              | rr => (1, rr)
            let ed := esAndRest.2.takeWhile isDigitChar
            if ed = [] then 0 else esAndRest.1 * (digitsToNat ed : ℤ)
          else 0
      | [] => 0
    some (sign * mantissa * qzpow 10 expVal)

/-- The whitelist test `/^[0-9+\-*/().eE\s]+$/` of `evaluateToNumber`. -/
def passesCharsetGate (s : String) : Bool :=
  !(s.data.isEmpty) &&
    s.data.all (fun c =>
      isDigitChar c || c ∈ ['+', '-', '*', '/', '(', ')', '.', 'e', 'E'] || isWsChar c)

def startsWithMathWord : List Char → Bool
  | 'M' :: 'a' :: 't' :: 'h' :: '.' :: c :: _ => isWordChar c
  | _ => false

/-- The containment test `/Math\.\w+/` of `evaluateToNumber`. -/
def containsMathWord : List Char → Bool
  | [] => false
  | c :: rest => startsWithMathWord (c :: rest) || containsMathWord rest

/-- The simple-fraction test `/^-?\d+\/\d+$/`. -/
def isSimpleFraction (s : String) : Bool :=
  let body := match s.data with
    | '-' :: r => r
    | r => r
  let d1 := body.takeWhile isDigitChar
  match body.dropWhile isDigitChar with
  | '/' :: r2 =>
      let d2 := r2.takeWhile isDigitChar
      !d1.isEmpty && !d2.isEmpty && (r2.dropWhile isDigitChar).isEmpty
  | _ => false

/-- `evalExpr.split('/')` for a string that passed `isSimpleFraction`. -/
def splitFraction (s : String) : String × String :=
  (String.mk (s.data.takeWhile (fun c => c ≠ '/')),
   String.mk ((s.data.dropWhile (fun c => c ≠ '/')).drop 1))

-- ===========================================================================
-- Numeric Evaluator — the generic expression evaluation
-- `new Function('return ' + evalExpr)()` restricted to the arithmetic
-- grammar reachable after the rewrite (numbers, + - * / ** ( ), Math.sqrt).
-- A JS exception (SyntaxError, ReferenceError, TypeError) is `.error`.
-- ===========================================================================

inductive Tok where
  | num (q : QF)
  | plus
  | minus
  | star
  | slash
  | starstar
  | lparen
  | rparen
  | sqrtTok
  deriving DecidableEq, Repr

/-- Tokenizer; `none` models a JS parse/reference error.  Letters other than
the literal `Math.sqrt` are undefined identifiers and fail, as in JS.  The
fuel is an upper bound on the input length. -/
def lexGo : ℕ → List Char → Option (List Tok)
  | 0, _ => Option.none
  | _ + 1, [] => some []
  | fuel + 1, c :: rest =>
      if isWsChar c then lexGo fuel rest
      else if c = '+' then (lexGo fuel rest).map (Tok.plus :: ·)
      else if c = '-' then (lexGo fuel rest).map (Tok.minus :: ·)
      else if c = '/' then (lexGo fuel rest).map (Tok.slash :: ·)
      else if c = '(' then (lexGo fuel rest).map (Tok.lparen :: ·)
      else if c = ')' then (lexGo fuel rest).map (Tok.rparen :: ·)
      else if c = '*' then
        match rest with
        | '*' :: r2 => (lexGo fuel r2).map (Tok.starstar :: ·)
        | _ => (lexGo fuel rest).map (Tok.star :: ·)
      else if c = 'M' then
        match rest with
        | 'a' :: 't' :: 'h' :: '.' :: 's' :: 'q' :: 'r' :: 't' :: r2 =>
            (lexGo fuel r2).map (Tok.sqrtTok :: ·)
        | _ => Option.none
      else if isDigitChar c || c = '.' then
        let d1 := (c :: rest).takeWhile isDigitChar
        let r1 := (c :: rest).dropWhile isDigitChar
        match r1 with
        | '.' :: r2 =>
            let d2 := r2.takeWhile isDigitChar
            let r3 := r2.dropWhile isDigitChar
            if d1.isEmpty && d2.isEmpty then Option.none
            else
              (lexGo fuel r3).map
                (Tok.num (QF.ofNat (digitsToNat d1) +
                  QF.ofNat (digitsToNat d2) / QF.ofNat (10 ^ d2.length)) :: ·)
        | _ =>
            if d1.isEmpty then Option.none
            else (lexGo fuel r1).map (Tok.num (QF.ofNat (digitsToNat d1)) :: ·)
      else Option.none

def lexTokens (s : String) : Option (List Tok) := lexGo (s.data.length + 1) s.data

mutual

/-- `AdditiveExpression`. -/
def parseAdd : ℕ → List Tok → Except Unit (JSNum × List Tok)
  | 0, _ => Except.error ()
  | fuel + 1, ts => do
      let (v, rest) ← parseMul fuel ts
      parseAddRest fuel v rest

def parseAddRest : ℕ → JSNum → List Tok → Except Unit (JSNum × List Tok)
  | 0, _, _ => Except.error ()
  | fuel + 1, acc, Tok.plus :: ts => do
      let (v, rest) ← parseMul fuel ts
      parseAddRest fuel (JSNum.add acc v) rest
  | fuel + 1, acc, Tok.minus :: ts => do
      let (v, rest) ← parseMul fuel ts
      parseAddRest fuel (JSNum.sub acc v) rest
  | _ + 1, acc, ts => Except.ok (acc, ts)

/-- `MultiplicativeExpression`. -/
def parseMul : ℕ → List Tok → Except Unit (JSNum × List Tok)
  | 0, _ => Except.error ()
  | fuel + 1, ts => do
      let (v, rest) ← parseExp fuel ts
      parseMulRest fuel v rest

def parseMulRest : ℕ → JSNum → List Tok → Except Unit (JSNum × List Tok)
  | 0, _, _ => Except.error ()
  | fuel + 1, acc, Tok.star :: ts => do
      let (v, rest) ← parseExp fuel ts
      parseMulRest fuel (JSNum.mul acc v) rest
  | fuel + 1, acc, Tok.slash :: ts => do
      let (v, rest) ← parseExp fuel ts
      parseMulRest fuel (JSNum.div acc v) rest
  | _ + 1, acc, ts => Except.ok (acc, ts)

/-- `ExponentiationExpression`: right-associative `**` whose left operand
must not be a unary expression (JS syntax error), while the right operand
may be. -/
def parseExp : ℕ → List Tok → Except Unit (JSNum × List Tok)
  | 0, _ => Except.error ()
  | fuel + 1, ts =>
      match ts with
      | Tok.minus :: _ => do
          let (v, rest) ← parseUnary fuel ts
          match rest with
          | Tok.starstar :: _ => Except.error ()
          | _ => Except.ok (v, rest)
      | Tok.plus :: _ => do
          let (v, rest) ← parseUnary fuel ts
          match rest with
          | Tok.starstar :: _ => Except.error ()
          | _ => Except.ok (v, rest)
      | _ => do
          let (v, rest) ← parsePrimary fuel ts
          match rest with
          | Tok.starstar :: ts2 => do
              let (r, rest2) ← parseExp fuel ts2
              Except.ok (JSNum.pow v r, rest2)
          | _ => Except.ok (v, rest)

/-- `UnaryExpression`. -/
def parseUnary : ℕ → List Tok → Except Unit (JSNum × List Tok)
  | 0, _ => Except.error ()
  | fuel + 1, Tok.minus :: ts => do
      let (v, rest) ← parseUnary fuel ts
      Except.ok (JSNum.neg v, rest)
  | fuel + 1, Tok.plus :: ts => parseUnary fuel ts
  | fuel + 1, ts => parsePrimary fuel ts

/-- `PrimaryExpression`: literal, parenthesized expression, `Math.sqrt(...)`
call. -/
def parsePrimary : ℕ → List Tok → Except Unit (JSNum × List Tok)
  | 0, _ => Except.error ()
  | _ + 1, Tok.num q :: ts => Except.ok (JSNum.fin q, ts)
  | fuel + 1, Tok.lparen :: ts => do
      let (v, rest) ← parseAdd fuel ts
      match rest with
      | Tok.rparen :: r => Except.ok (v, r)
      | _ => Except.error ()
  | fuel + 1, Tok.sqrtTok :: Tok.lparen :: ts => do
      let (v, rest) ← parseAdd fuel ts
      match rest with
      | Tok.rparen :: r => Except.ok (JSNum.sqrt v, r)
      | _ => Except.error ()
  | _ + 1, _ => Except.error ()

end

/-- The generic evaluator: lex, parse a full expression, reject trailing
tokens; any JS exception is `.error`.  The parser fuel is a generous bound
on the recursion depth of the descent.

Scope of this model: it is a closed arithmetic evaluator, faithful exactly
for inputs whose rewritten form contains no identifier other than the
literal `Math.sqrt`.  In the source, `new Function` evaluates in the
realm's mutable global environment, so an identifier-bearing string that
slips past the `Math.`-containment gate can read and write globals and
make `evaluateToNumber` stateful across invocations (see
`determinism_defeated_by_gate_bypass`); this model maps every such string
to a throw instead, and no settled claim other than C9's rests on the
behaviour of identifier-bearing inputs. -/
def genericEval (s : String) : Except Unit JSNum :=
  match lexTokens s with
  | Option.none => Except.error ()
  | some ts =>
      match parseAdd (10 * ts.length + 10) ts with
      | Except.error _ => Except.error ()
      | Except.ok (v, []) => Except.ok v
      | Except.ok (_, _ :: _) => Except.error ()

-- ===========================================================================
-- `evaluateToNumber`
-- ===========================================================================

/-- `evaluateToNumber`: rewrite, then in order: simple `integer/integer`
fraction; gated generic evaluation (whitelist match OR `Math.`-containment);
`parseFloat` fallback on the normalized string.  `none` is JS `null`; note
that a thrown generic evaluation reaches the enclosing `catch` and yields
`null` without attempting the fallback, while a `NaN` result falls through
to the fallback. -/
def evaluateToNumber (expr : String) : Option JSNum :=
  let normalized := normalizeExpression expr
  let evalExpr := rewrittenForm expr
  if isSimpleFraction evalExpr then
    let p := splitFraction evalExpr
    let a := match jparseFloat p.1 with
      | some q => JSNum.fin q
      | Option.none => JSNum.nan
    let b := match jparseFloat p.2 with
      | some q => JSNum.fin q
      | Option.none => JSNum.nan
    some (JSNum.div a b)
  else if passesCharsetGate evalExpr || containsMathWord evalExpr.data then
    match genericEval evalExpr with
    | Except.error _ => Option.none
    | Except.ok v =>
        if v = JSNum.nan then (jparseFloat normalized).map JSNum.fin
        else some v
  else
    (jparseFloat normalized).map JSNum.fin

/-- Whether `evaluateToNumber` reaches the `new Function` generic evaluator
on the given input: the rewritten form is not a simple fraction and passes
the gate `charset-match || Math.-containment`. -/
def invokesGenericEval (expr : String) : Bool :=
  let evalExpr := rewrittenForm expr
  !isSimpleFraction evalExpr &&
    (passesCharsetGate evalExpr || containsMathWord evalExpr.data)

-- ===========================================================================
-- Algebraic Term Decomposer (`parseAlgebraic`)
-- ===========================================================================

/-- `normalized.split(/(?=[+-])/)`: split before each `+`/`-`, the sign
staying attached to the following part; a zero-width match at the start
produces no leading empty part. -/
def splitSignedGo : List Char → List Char → List (List Char)
  | [], cur => [cur.reverse]
  | c :: rest, cur =>
      if (c = '+' || c = '-') && !cur.isEmpty then cur.reverse :: splitSignedGo rest [c]
      else splitSignedGo rest (c :: cur)

def splitSigned (cs : List Char) : List (List Char) := splitSignedGo cs []

/-- The term regex `^([+-]?\d*\.?\d*)\*?([a-z]*)(\^?\d*)?$/i` of
`parseAlgebraic`, returning the three captured groups (coefficient string,
variable string, power string) or `none` when the part does not match.
All component character classes are disjoint, so the greedy scan is the
regex result. -/
def matchTermParts (part : List Char) : Option (List Char × List Char × List Char) :=
  let signAndRest : List Char × List Char :=
    match part with
    | '+' :: r => (['+'], r)
    | '-' :: r => (['-'], r)
    | r => ([], r)
  let d1 := signAndRest.2.takeWhile isDigitChar
  let r1 := signAndRest.2.dropWhile isDigitChar
  let dotAndRest : List Char × List Char :=
    match r1 with
    | '.' :: r => (['.'], r)
    | r => ([], r)
  let d2 := dotAndRest.2.takeWhile isDigitChar
  let r3 := dotAndRest.2.dropWhile isDigitChar
  let coefStr := signAndRest.1 ++ d1 ++ dotAndRest.1 ++ d2
  let r4 := match r3 with
    | '*' :: r => r
    | r => r
  let letters := r4.takeWhile isAlphaChar
  let r5 := r4.dropWhile isAlphaChar
  let caretAndRest : List Char × List Char :=
    match r5 with
    | '^' :: r => (['^'], r)
    | r => ([], r)
  let d3 := caretAndRest.2.takeWhile isDigitChar
  let r7 := caretAndRest.2.dropWhile isDigitChar
  if r7.isEmpty then some (coefStr, letters, caretAndRest.1 ++ d3) else Option.none

/-- `terms[key] = (terms[key] || 0) + coef` on an insertion-ordered map;
a falsy stored value (`0`, `NaN`) is coerced to `0` before the addition. -/
def upsertTerm (terms : List (String × JSNum)) (key : String) (coef : JSNum) :
    List (String × JSNum) :=
  if (terms.lookup key).isSome then
    terms.map (fun p =>
      if p.1 = key then (p.1, JSNum.add (if p.2.truthy then p.2 else JSNum.fin 0) coef) else p)
  else terms ++ [(key, coef)]

/-- `parseAlgebraic`: split the normalized expression into signed parts and
accumulate coefficients keyed by `"const"` or `"<variable>^<power>"`.
An empty or `+` coefficient string is `+1`, a lone `-` is `-1`, anything
else goes through `parseFloat` (which can produce `NaN`, e.g. for `"."`).
The power string drops its leading `^`; an empty power group means `"1"`. -/
def parseAlgebraic (expr : String) : List (String × JSNum) :=
  let normalized := normalizeExpression expr
  (splitSigned normalized.data).foldl
    (fun terms part =>
      if part.isEmpty then terms
      else
        match matchTermParts part with
        | some (coefStr, letters, powerStr) =>
            let coef : JSNum :=
              if coefStr = [] || coefStr = ['+'] then JSNum.fin 1
              else if coefStr = ['-'] then JSNum.fin (-1)
              else
                match jparseFloat (String.mk coefStr) with
                | some q => JSNum.fin q
                | Option.none => JSNum.nan
            let vbl := if letters.isEmpty then "const" else String.mk letters
            let power :=
              if powerStr.isEmpty then "1"
              else
                match powerStr with
                | '^' :: r => String.mk r
                | r => String.mk r
            let key := if vbl = "const" then "const" else vbl ++ "^" ++ power
            upsertTerm terms key coef
        | Option.none => terms)
    []

def termKeys (t : List (String × JSNum)) : List String := t.map Prod.fst

/-- `terms[key] || 0` at comparison time: missing, `0` and `NaN` coefficients
all read as `0` (stored values are always finite or `NaN`). -/
def getCoef (t : List (String × JSNum)) (k : String) : QF :=
  match t.lookup k with
  | some (JSNum.fin q) => q
  | _ => 0

/-- `checkAlgebraicEquivalence`: decompose both expressions and require that
no key of either map has coefficients differing by more than `0.0001`
(the JS `Set` union of the key lists; deduplication cannot change the
conjunction). -/
def checkAlgebraicEquivalence (expr1 expr2 : String) : Bool :=
  let t1 := parseAlgebraic expr1
  let t2 := parseAlgebraic expr2
  let allKeys := (termKeys t1 ++ termKeys t2).dedup
  allKeys.all (fun k => !decide ((1 : QF) / 10000 < qabs (getCoef t1 k - getCoef t2 k)))

-- ===========================================================================
-- Equivalence Resolver (`checkEquivalence`)
-- ===========================================================================

/-- `/[a-z]/i.test`: the string contains an ASCII letter. -/
def containsLetter (s : String) : Bool := s.data.any isAlphaChar

/-- The tagged result of `checkEquivalence`; `method` is one of the source's
string literals `"exact" | "numeric" | "algebraic" | "none"`. -/
structure EquivalenceResult where
  isEquivalent : Bool
  method : String
  userValue : Option JSNum := Option.none
  expectedValue : Option JSNum := Option.none
  isClose : Option Bool := Option.none
  deriving DecidableEq, Repr

/-- The numeric tier of `checkEquivalence`: if both sides evaluated, return
the equivalent verdict within `tolerance`, or the near-miss verdict within
`tolerance * 100`; `none` means fall through to the next tier. -/
def numericTier (userNum expectedNum : Option JSNum) (tolerance : QF) :
    Option EquivalenceResult :=
  match userNum, expectedNum with
  | some a, some b =>
      if JSNum.leB (JSNum.abs (JSNum.sub a b)) (JSNum.fin tolerance) then
        some { isEquivalent := true, method := "numeric",
               userValue := some a, expectedValue := some b }
      else if JSNum.leB (JSNum.abs (JSNum.sub a b)) (JSNum.fin (tolerance * 100)) then
        some { isEquivalent := false, method := "numeric", isClose := some true,
               userValue := some a, expectedValue := some b }
      else Option.none
  | _, _ => Option.none

/-- `checkEquivalence`: exact tier, numeric tier (with the widened
`tolerance * 100` near-miss band), algebraic tier, `none`. -/
def checkEquivalence (userAnswer expectedAnswer : String) (tolerance : QF := 1 / 10000) :
    EquivalenceResult :=
  let userNorm := normalizeExpression userAnswer
  let expectedNorm := normalizeExpression expectedAnswer
  if userNorm = expectedNorm then { isEquivalent := true, method := "exact" }
  else
    match numericTier (evaluateToNumber userAnswer) (evaluateToNumber expectedAnswer)
        tolerance with
    | some r => r
    | Option.none =>
        if containsLetter userNorm && containsLetter expectedNorm
            && checkAlgebraicEquivalence userNorm expectedNorm then
          { isEquivalent := true, method := "algebraic" }
        else { isEquivalent := false, method := "none" }

-- ===========================================================================
-- Misconception Detector
-- ===========================================================================

structure Misconception where
  id : String
  name : String
  description : String
  hint : String
  deriving DecidableEq, Repr

/-- A catalog entry: metadata plus a predicate over the two raw answer
strings.  The predicate is typed in `Except Unit` to model that JS
predicates may throw; every predicate of the actual catalog is total and
returns `Except.ok`. -/
structure MisconceptionPattern where
  id : String
  name : String
  description : String
  hint : String
  check : String → String → Except Unit Bool

def misconceptionOf (p : MisconceptionPattern) : Misconception :=
  { id := p.id, name := p.name, description := p.description, hint := p.hint }

/-- Both answers evaluate numerically; apply `f` to the two values, else
`false` — the shared shape of the catalog predicates. -/
def bothNums (f : JSNum → JSNum → Bool) (user expected : String) : Bool :=
  match evaluateToNumber user, evaluateToNumber expected with
  | some u, some e => f u e
  | _, _ => false

/-- The fixed misconception catalog (7 entries, source order). -/
def MISCONCEPTIONS : List MisconceptionPattern :=
  [ { id := "sign_error", name := "Vorzeichenfehler",
      description := "Das Vorzeichen wurde verwechselt",
      hint := "Überprüfe die Vorzeichen in deiner Rechnung.",
      check := fun user expected => Except.ok (bothNums
        (fun u e => JSNum.ltB (JSNum.abs (JSNum.add u e)) (JSNum.fin (1 / 10000)))
        user expected) },
    { id := "factor_error", name := "Faktor vergessen",
      description := "Ein Faktor wurde vergessen oder hinzugefügt",
      hint := "Überprüfe, ob du alle Faktoren berücksichtigt hast.",
      check := fun user expected => Except.ok (bothNums
        (fun u e =>
          if !e.isZero then
            [JSNum.fin 2, JSNum.fin (1 / 2), JSNum.fin 10, JSNum.fin (1 / 10),
             JSNum.fin piQ, JSNum.fin (1 / piQ)].any
              (fun f => JSNum.ltB (JSNum.abs (JSNum.sub (JSNum.div u e) f))
                (JSNum.fin (1 / 1000)))
          else false)
        user expected) },
    { id := "fraction_flip", name := "Bruch umgekehrt",
      description := "Zähler und Nenner wurden vertauscht",
      hint := "Überprüfe, ob Zähler und Nenner in der richtigen Position sind.",
      check := fun user expected => Except.ok (bothNums
        (fun u e =>
          if !u.isZero then
            JSNum.ltB (JSNum.abs (JSNum.sub (JSNum.mul u e) (JSNum.fin 1)))
              (JSNum.fin (1 / 10000))
          else false)
        user expected) },
    { id := "order_of_operations", name := "Rechenreihenfolge",
      description := "Punkt vor Strich nicht beachtet",
      hint := "Denke an die Rechenreihenfolge: Klammern, Potenzen, Punkt vor Strich.",
      check := fun _ _ => Except.ok false },
    { id := "power_error", name := "Potenzfehler",
      description := "Fehler beim Potenzieren",
      hint := "Überprüfe die Potenz- und Wurzeloperationen.",
      check := fun user expected => Except.ok (bothNums
        (fun u e =>
          if JSNum.gtB e (JSNum.fin 0) then
            JSNum.ltB (JSNum.abs (JSNum.sub u (JSNum.sqrt e))) (JSNum.fin (1 / 1000)) ||
              JSNum.ltB (JSNum.abs (JSNum.sub u (JSNum.mul e e))) (JSNum.fin (1 / 1000))
          else false)
        user expected) },
    { id := "decimal_error", name := "Kommafehler",
      description := "Das Dezimalkomma wurde falsch gesetzt",
      hint := "Überprüfe die Position des Dezimalkommas.",
      check := fun user expected => Except.ok (bothNums
        (fun u e =>
          if !e.isZero then
            [JSNum.fin 10, JSNum.fin 100, JSNum.fin 1000, JSNum.fin (1 / 10),
             JSNum.fin (1 / 100), JSNum.fin (1 / 1000)].any
              (fun f => JSNum.ltB (JSNum.abs (JSNum.sub (JSNum.div u e) f))
                (JSNum.fin (1 / 10000)))
          else false)
        user expected) },
    { id := "unit_conversion", name := "Einheitenfehler",
      description := "Einheiten wurden nicht korrekt umgerechnet",
      hint := "Überprüfe, ob du alle Einheiten korrekt umgerechnet hast.",
      check := fun user expected => Except.ok (bothNums
        (fun u e =>
          if !e.isZero then
            [JSNum.fin 60, JSNum.fin (1 / 60), JSNum.fin 3600, JSNum.fin (1 / 3600),
             JSNum.fin 1000, JSNum.fin (1 / 1000), JSNum.fin 100, JSNum.fin (1 / 100)].any
              (fun f => JSNum.ltB (JSNum.abs (JSNum.sub (JSNum.div u e) f))
                (JSNum.fin (1 / 10000)))
          else false)
        user expected) } ]

/-- The detection loop of `detectMisconceptions` over an arbitrary catalog:
each entry's predicate runs in its own `try/catch`; a throwing predicate is
skipped and the remaining entries are still evaluated. -/
def detectLoop (catalog : List MisconceptionPattern) (user expected : String) :
    List Misconception :=
  match catalog with
  | [] => []
  | p :: rest =>
      match p.check user expected with
      | Except.error _ => detectLoop rest user expected
      | Except.ok b =>
          if b then misconceptionOf p :: detectLoop rest user expected
          else detectLoop rest user expected

def detectMisconceptions (userAnswer expectedAnswer : String) : List Misconception :=
  detectLoop MISCONCEPTIONS userAnswer expectedAnswer

-- ===========================================================================
-- Evaluation Orchestrator — request/response data model
-- ===========================================================================

/-- The `questionData.type` string literals. -/
inductive QType where
  | multipleChoice
  | stepByStep
  | freeForm
  | numeric
  deriving DecidableEq, Repr

structure MCOption where
  id : String
  text : String
  isCorrect : Option Bool := Option.none
  deriving DecidableEq, Repr

structure StepSpec where
  stepNumber : ℤ
  expectedAnswer : String
  tolerance : Option QF := Option.none
  deriving DecidableEq, Repr

structure QuestionData where
  type : QType
  difficulty : Option QF := Option.none
  correctAnswer : Option String := Option.none
  expectedAnswer : Option String := Option.none
  tolerance : Option QF := Option.none
  options : Option (List MCOption) := Option.none
  steps : Option (List StepSpec) := Option.none
  deriving DecidableEq, Repr

/-- `userAnswer: string | string[] | { [key: number]: string }`. -/
inductive UserAnswer where
  | str (s : String)
  | arr (xs : List String)
  | obj (m : List (ℕ × String))
  deriving DecidableEq, Repr

/-- The request body fields the handler reads.  `hintsUsed` is modelled as a
natural number (the hint count the interface declares); `skipped` and the
boolean flags model JS truthiness of the optional booleans. -/
structure Request where
  questionData : Option QuestionData
  userAnswer : Option UserAnswer
  hintsUsed : Option ℕ := Option.none
  timeSpent : Option QF := Option.none
  skipped : Bool := false
  correctStreak : Option QF := Option.none
  streakFreezeAvailable : Bool := false
  isFirstQuestionToday : Bool := false
  dailyStreak : Option QF := Option.none
  deriving DecidableEq, Repr

structure StepResult where
  stepNumber : ℤ
  correct : Bool
  expected : String
  actual : String
  equivalenceMethod : String
  isClose : Bool
  misconceptions : List Misconception
  deriving DecidableEq, Repr

/-- `equivalenceResult` of the response: `null`, a single result, or the
per-step list. -/
inductive EquivOut where
  | null
  | single (r : EquivalenceResult)
  | steps (rs : List StepResult)
  deriving DecidableEq, Repr

inductive CorrectAnswer where
  | null
  | str (s : String)
  | list (xs : List String)
  deriving DecidableEq, Repr

structure XPBreakdown where
  base : QF
  hintPenalty : QF
  timePenalty : QF
  bonuses : Option QF := Option.none
  timeBonus : Option QF := Option.none
  streakBonus : Option QF := Option.none
  equivalenceBonus : Option QF := Option.none
  total : QF
  deriving DecidableEq, Repr

structure CoinBonus where
  type : String
  bonus : String
  deriving DecidableEq, Repr

structure CoinBreakdown where
  base : QF
  multiplier : QF
  bonuses : Option (List CoinBonus) := Option.none
  total : QF
  deriving DecidableEq, Repr

structure EvalResponse where
  success : Bool
  isCorrect : Bool
  correctAnswer : CorrectAnswer
  xpEarned : QF
  coinsEarned : QF
  xpBreakdown : XPBreakdown
  coinBreakdown : CoinBreakdown
  misconceptions : List Misconception
  equivalenceResult : EquivOut
  streakFrozen : Option Bool := Option.none
  deriving DecidableEq, Repr

/-- A handler outcome: a JSON response or an `APIError` with HTTP status. -/
inductive HandlerOut where
  | ok (resp : EvalResponse)
  | err (status : ℕ) (message : String)
  deriving DecidableEq, Repr

-- ===========================================================================
-- Orchestrator helpers (JS `||` defaulting on numbers and strings)
-- ===========================================================================

/-- `v || dflt` on an optional number: `undefined` and `0` take the default. -/
def jsOrNum (v : Option QF) (dflt : QF) : QF :=
  match v with
  | some q => if q.isZero then dflt else q
  | Option.none => dflt

/-- `v || dflt` on an optional string: `undefined` and `''` take the default. -/
def jsOrStr (v : Option String) (dflt : String) : String :=
  match v with
  | some s => if s = "" then dflt else s
  | Option.none => dflt

/-- `tolerance || 0.01`: the tolerance actually given to `checkEquivalence`
for a question or step whose metadata carries `tolerance`. -/
def effectiveTolerance (t : Option QF) : QF := jsOrNum t (1 / 100)

/-- `String(userStepAnswer)` for step `index`: array lookup (out of range is
`String(undefined) = "undefined"`), object lookup, `''` for a plain string. -/
def userStepAnswerString (ua : UserAnswer) (index : ℕ) : String :=
  match ua with
  | UserAnswer.arr xs =>
      match xs.get? index with
      | some s => s
      | Option.none => "undefined"
  | UserAnswer.obj m =>
      match m.lookup index with
      | some s => s
      | Option.none => "undefined"
  | UserAnswer.str _ => ""

/-- `String(userAnswer)` on the whole union (array stringification is a
comma join, object stringification is the object tag). -/
def userAnswerString (ua : UserAnswer) : String :=
  match ua with
  | UserAnswer.str s => s
  | UserAnswer.arr xs => String.intercalate "," xs
  | UserAnswer.obj _ => "[object Object]"

-- ===========================================================================
-- Phase 1: evaluation by question type
-- ===========================================================================

/-- One step of the step-by-step evaluation. -/
def stepEval (ua : UserAnswer) (index : ℕ) (step : StepSpec) : StepResult :=
  let userStepAnswer := userStepAnswerString ua index
  let tolerance := effectiveTolerance step.tolerance
  let result := checkEquivalence userStepAnswer step.expectedAnswer tolerance
  let stepMisconceptions :=
    if result.isEquivalent then []
    else detectMisconceptions userStepAnswer step.expectedAnswer
  { stepNumber := step.stepNumber
    correct := result.isEquivalent
    expected := step.expectedAnswer
    actual := userStepAnswer
    equivalenceMethod := result.method
    isClose := result.isClose.getD false
    misconceptions := stepMisconceptions }

/-- `questionData.steps?.map(...) || []`. -/
def evaluateStepByStep (qd : QuestionData) (ua : UserAnswer) : List StepResult :=
  ((qd.steps.getD []).enum).map (fun p => stepEval ua p.1 p.2)

structure Phase1Out where
  isCorrect : Bool
  correctAnswer : CorrectAnswer
  equivalenceResult : EquivOut
  misconceptions : List Misconception
  deriving DecidableEq, Repr

/-- The `free-form` / `numeric` branch. -/
def freeFormEval (qd : QuestionData) (ua : UserAnswer) : Phase1Out :=
  let expected := jsOrStr qd.correctAnswer (jsOrStr qd.expectedAnswer "")
  let tolerance := effectiveTolerance qd.tolerance
  let result := checkEquivalence (userAnswerString ua) expected tolerance
  let ms :=
    if result.isEquivalent then []
    else detectMisconceptions (userAnswerString ua) expected
  { isCorrect := result.isEquivalent
    correctAnswer := CorrectAnswer.str expected
    equivalenceResult := EquivOut.single result
    misconceptions := ms }

/-- Phase 1 of the handler: dispatch over the question type. -/
def phase1 (qd : QuestionData) (ua : UserAnswer) : Phase1Out :=
  match qd.type with
  | QType.multipleChoice =>
      let found := (qd.options.getD []).find? (fun opt => opt.isCorrect = some true)
      let correctAnswer : Option String :=
        match found with
        | some opt => if opt.id = "" then Option.none else some opt.id
        | Option.none => Option.none
      let isCorrect :=
        match ua, correctAnswer with
        | UserAnswer.str s, some c => s = c
        | _, _ => false
      { isCorrect := isCorrect
        correctAnswer :=
          match correctAnswer with
          | some c => CorrectAnswer.str c
          | Option.none => CorrectAnswer.null
        equivalenceResult := EquivOut.null
        misconceptions := [] }
  | QType.stepByStep =>
      let stepResults := evaluateStepByStep qd ua
      { isCorrect := stepResults.all (fun r => r.correct)
        correctAnswer := CorrectAnswer.list ((qd.steps.getD []).map (fun s => s.expectedAnswer))
        equivalenceResult := EquivOut.steps stepResults
        misconceptions := stepResults.flatMap (fun r => r.misconceptions) }
  | QType.freeForm => freeFormEval qd ua
  | QType.numeric => freeFormEval qd ua

-- ===========================================================================
-- Phase 2/3/4: Scoring Engine
-- ===========================================================================

/-- `BASE_XP[difficulty] || 20`. -/
def baseXpFor (d : Option QF) : QF :=
  match d with
  | some q =>
      if q.eqInt 1 then 10 else if q.eqInt 2 then 15 else if q.eqInt 3 then 20
      else if q.eqInt 4 then 30 else if q.eqInt 5 then 50 else if q.eqInt 6 then 60
      else if q.eqInt 7 then 75 else if q.eqInt 8 then 90 else if q.eqInt 9 then 110
      else if q.eqInt 10 then 130 else 20
  | Option.none => 20

/-- `BASE_COINS[difficulty] || 2`. -/
def baseCoinsFor (d : Option QF) : QF :=
  match d with
  | some q =>
      if q.eqInt 1 then 1 else if q.eqInt 2 then 1 else if q.eqInt 3 then 2
      else if q.eqInt 4 then 2 else if q.eqInt 5 then 3 else if q.eqInt 6 then 3
      else if q.eqInt 7 then 4 else if q.eqInt 8 then 4 else if q.eqInt 9 then 5
      else if q.eqInt 10 then 5 else 2
  | Option.none => 2

/-- `HINT_PENALTY_MULTIPLIER[min(hintsUsed || 0, 3)]`. -/
def hintMultiplier (n : ℕ) : QF :=
  if n = 0 then 1 else if n = 1 then 17 / 20 else if n = 2 then 13 / 20 else 2 / 5

/-- `timeSpent && timeSpent < expectedTime * 0.5` (`0` is falsy). -/
def fastAnswer (timeSpent : Option QF) (expectedTime : QF) : Bool :=
  match timeSpent with
  | some t => !t.isZero && decide (t < expectedTime * (1 / 2))
  | Option.none => false

/-- `streak && streak >= k` (`0` is falsy). -/
def streakAtLeast (streak : Option QF) (k : QF) : Bool :=
  match streak with
  | some s => !s.isZero && decide (k ≤ s)
  | Option.none => false

/-- The raw (unrounded) components and rounded total of the correct-answer
XP chain. -/
structure XPCalc where
  hintMult : QF
  hintPenaltyRaw : QF
  timeBonusRaw : QF
  streakBonusRaw : QF
  equivalenceBonusRaw : QF
  totalXp : QF
  deriving DecidableEq, Repr

/-- Phase 3: the XP chain, in source order — hint multiplier on the base,
flat time bonus of 20% of base, streak bonus of 50%/25% of the running
total, equivalence bonus of 10% of base for an algebraic single-answer
verdict, then `Math.round`. -/
def computeXP (baseXp : QF) (difficulty : Option QF) (hintsUsed : Option ℕ)
    (timeSpent : Option QF) (correctStreak : Option QF) (equiv : EquivOut) : XPCalc :=
  let hm := hintMultiplier (min (hintsUsed.getD 0) 3)
  let hintPenaltyRaw := baseXp * (1 - hm)
  let xp1 := baseXp * hm
  let expectedTime := jsOrNum difficulty 5 * 60
  let timeBonusRaw := if fastAnswer timeSpent expectedTime then baseXp * (1 / 5) else 0
  let xp2 := xp1 + timeBonusRaw
  let streakBonusRaw :=
    if streakAtLeast correctStreak 5 then xp2 * (1 / 2)
    else if streakAtLeast correctStreak 3 then xp2 * (1 / 4)
    else 0
  let xp3 := xp2 + streakBonusRaw
  let isAlgebraic :=
    match equiv with
    | EquivOut.single r => decide (r.method = "algebraic")
    | _ => false
  let equivalenceBonusRaw := if isAlgebraic then baseXp * (1 / 10) else 0
  let xp4 := xp3 + equivalenceBonusRaw
  { hintMult := hm
    hintPenaltyRaw := hintPenaltyRaw
    timeBonusRaw := timeBonusRaw
    streakBonusRaw := streakBonusRaw
    equivalenceBonusRaw := equivalenceBonusRaw
    totalXp := jsRound xp4 }

structure CoinCalc where
  multiplier : QF
  bonuses : List CoinBonus
  totalCoins : QF
  deriving DecidableEq, Repr

/-- Phase 4: the multiplicative coin chain (first question ×2, daily streak
×1.5, perfect answer ×1.25), recording each applied bonus by name. -/
def computeCoins (baseCoins : QF) (isFirstQuestionToday : Bool) (dailyStreak : Option QF)
    (hintsUsed : Option ℕ) (timeSpent : Option QF) (difficulty : Option QF) : CoinCalc :=
  let m1 : QF := if isFirstQuestionToday then 2 else 1
  let b1 : List CoinBonus := if isFirstQuestionToday then [⟨"firstQuestion", "x2"⟩] else []
  let daily := streakAtLeast dailyStreak 5
  let m2 := if daily then m1 * (3 / 2) else m1
  let b2 := if daily then b1 ++ [⟨"streakBonus", "+50%"⟩] else b1
  let expectedTime := jsOrNum difficulty 5 * 60
  let isPerfect := (hintsUsed.getD 0 = 0) && fastAnswer timeSpent expectedTime
  let m3 := if isPerfect then m2 * (5 / 4) else m2
  let b3 := if isPerfect then b2 ++ [⟨"perfect", "+25%"⟩] else b2
  { multiplier := m3, bonuses := b3, totalCoins := jsRound (baseCoins * m3) }

-- ===========================================================================
-- The evaluation handler
-- ===========================================================================

/-- `handleEvaluateAnswer`: field validation, phase 1 dispatch, then the
skipped / incorrect / correct response with its reward breakdowns. -/
def handleEvaluateAnswer (req : Request) : HandlerOut :=
  match req.questionData, req.userAnswer with
  | Option.none, _ => HandlerOut.err 400 "Missing required fields: questionData, userAnswer"
  | some _, Option.none => HandlerOut.err 400 "Missing required fields: questionData, userAnswer"
  | some qd, some ua =>
      let p1 := phase1 qd ua
      let baseXp := baseXpFor qd.difficulty
      let baseCoins := baseCoinsFor qd.difficulty
      if req.skipped then
        HandlerOut.ok
          { success := true
            isCorrect := false
            correctAnswer := p1.correctAnswer
            xpEarned := 0
            coinsEarned := 0
            xpBreakdown :=
              { base := baseXp, hintPenalty := -baseXp, timePenalty := 0,
                bonuses := some 0, total := 0 }
            coinBreakdown := { base := baseCoins, multiplier := 0, total := 0 }
            misconceptions := []
            equivalenceResult := EquivOut.null }
      else if !p1.isCorrect then
        let streakFrozen := req.streakFreezeAvailable && streakAtLeast req.correctStreak 5
        HandlerOut.ok
          { success := true
            isCorrect := false
            correctAnswer := p1.correctAnswer
            xpEarned := 0
            coinsEarned := 0
            xpBreakdown :=
              { base := baseXp, hintPenalty := 0, timePenalty := 0,
                bonuses := some 0, total := 0 }
            coinBreakdown := { base := baseCoins, multiplier := 0, total := 0 }
            misconceptions := p1.misconceptions
            equivalenceResult := p1.equivalenceResult
            streakFrozen := some streakFrozen }
      else
        let xc := computeXP baseXp qd.difficulty req.hintsUsed req.timeSpent
          req.correctStreak p1.equivalenceResult
        let cc := computeCoins baseCoins req.isFirstQuestionToday req.dailyStreak
          req.hintsUsed req.timeSpent qd.difficulty
        HandlerOut.ok
          { success := true
            isCorrect := true
            correctAnswer := p1.correctAnswer
            xpEarned := xc.totalXp
            coinsEarned := cc.totalCoins
            xpBreakdown :=
              { base := baseXp
                hintPenalty := -(jsRound xc.hintPenaltyRaw)
                timePenalty := 0
                timeBonus := some (jsRound xc.timeBonusRaw)
                streakBonus := some (jsRound xc.streakBonusRaw)
                equivalenceBonus := some (jsRound xc.equivalenceBonusRaw)
                total := xc.totalXp }
            coinBreakdown :=
              { base := baseCoins, multiplier := cc.multiplier,
                bonuses := some cc.bonuses, total := cc.totalCoins }
            misconceptions := []
            equivalenceResult := p1.equivalenceResult }

/-- The response of a non-error outcome. -/
def HandlerOut.respOf : HandlerOut → Option EvalResponse
  | HandlerOut.ok r => some r
  | HandlerOut.err _ _ => Option.none

/-- Whether the outcome is a 4xx client error. -/
def HandlerOut.isClientError : HandlerOut → Bool
  | HandlerOut.err s _ => decide (400 ≤ s) && decide (s < 500)
  | HandlerOut.ok _ => false

-- ===========================================================================
-- Concrete instances used by the claim theorems
-- ===========================================================================

/-- A step-by-step question with no steps array (malformed per the spec). -/
def qdMissingSteps : QuestionData := { type := QType.stepByStep, difficulty := some 5 }

def reqMissingSteps : Request :=
  { questionData := some qdMissingSteps, userAnswer := some (UserAnswer.str "anything") }

/-- A free-form question with no expected answer (malformed per the spec). -/
def qdMissingExpected : QuestionData := { type := QType.freeForm, difficulty := some 5 }

def reqMissingExpected : Request :=
  { questionData := some qdMissingExpected, userAnswer := some (UserAnswer.str "5") }

/-- Difficulty 1, one hint, correct: the rounded components sum to 8 while
the total is 9. -/
def qdRoundingGap : QuestionData :=
  { type := QType.freeForm, difficulty := some 1, correctAnswer := some "7" }

def reqRoundingGap : Request :=
  { questionData := some qdRoundingGap, userAnswer := some (UserAnswer.str "7"),
    hintsUsed := some 1 }

/-- The end-to-end scenario of the spec: difficulty 5, no hints, fast,
streak 5, algebraic equivalence. -/
def qdScenario95 : QuestionData :=
  { type := QType.freeForm, difficulty := some 5, correctAnswer := some "x+1" }

def reqScenario95 : Request :=
  { questionData := some qdScenario95, userAnswer := some (UserAnswer.str "1+x"),
    hintsUsed := some 0, timeSpent := some 10, correctStreak := some 5 }

/-- A 3-step question whose third step will be answered wrongly. -/
def qdThreeSteps : QuestionData :=
  { type := QType.stepByStep, difficulty := some 3,
    steps := some [⟨1, "2", Option.none⟩, ⟨2, "3", Option.none⟩, ⟨3, "4", Option.none⟩] }

def uaThreeSteps : UserAnswer := UserAnswer.arr ["2", "3", "9"]

def reqThreeSteps : Request :=
  { questionData := some qdThreeSteps, userAnswer := some uaThreeSteps }

/-- A catalog entry whose predicate always throws (for the exception-safety
theorem of the detection loop). -/
def throwingPattern : MisconceptionPattern :=
  { id := "always_throws", name := "always throws", description := "",
    hint := "", check := fun _ _ => Except.error () }

/-- A numeric question that explicitly requests tolerance `0`. -/
def qdZeroTolerance : QuestionData :=
  { type := QType.numeric, difficulty := some 2, expectedAnswer := some "3",
    tolerance := some 0 }

-- ===========================================================================
-- Helper lemmas
-- ===========================================================================

/-- The spec's reading of algebraic agreement: every term key present in
either monomial map has coefficients differing by at most `0.0001`, missing
keys counting as coefficient `0`. -/
def monomialAgreement (t1 t2 : List (String × JSNum)) : Prop :=
  ∀ k ∈ termKeys t1 ++ termKeys t2,
    qabs (getCoef t1 k - getCoef t2 k) ≤ (1 : QF) / 10000

instance (t1 t2 : List (String × JSNum)) : Decidable (monomialAgreement t1 t2) :=
  List.decidableBAll _ _

theorem QF.den_cast_ne_zero (a : QF) : ((a.den : ℕ) : ℚ) ≠ 0 :=
  Nat.cast_ne_zero.mpr (Nat.succ_ne_zero _)

theorem QF.den_int_ne_zero (a : QF) : ((a.den : ℕ) : ℤ) ≠ 0 :=
  Int.natCast_ne_zero.mpr (Nat.succ_ne_zero _)

theorem QF.toQ_mk' (n d : ℤ) (hd : d ≠ 0) :
    (QF.mk' n d).toQ = (n : ℚ) / (d : ℚ) := by
  unfold QF.mk'
  rw [if_neg hd]
  set n' := if d < 0 then -n else n with hnpdef
  set dn := d.natAbs with hdndef
  set g := Nat.gcd n'.natAbs dn with hgdef
  have hdn : dn ≠ 0 := Int.natAbs_ne_zero.mpr hd
  have hg0 : g ≠ 0 := fun h => hdn (Nat.eq_zero_of_gcd_eq_zero_right h)
  have hgZ : (g : ℤ) ≠ 0 := Int.natCast_ne_zero.mpr hg0
  have hgQ : (g : ℚ) ≠ 0 := Nat.cast_ne_zero.mpr hg0
  have hgn : (g : ℤ) ∣ n' :=
    Int.dvd_natAbs.mp (Int.natCast_dvd_natCast.mpr (Nat.gcd_dvd_left _ _))
  have hgd : g ∣ dn := Nat.gcd_dvd_right _ _
  have hdivpos : 0 < dn / g :=
    Nat.div_pos (Nat.le_of_dvd (Nat.pos_of_ne_zero hdn) hgd) (Nat.pos_of_ne_zero hg0)
  have hsub : dn / g - 1 + 1 = dn / g := Nat.sub_add_cancel hdivpos
  obtain ⟨k, hk⟩ := hgn
  obtain ⟨j, hj⟩ := hgd
  have htdiv : Int.tdiv n' (g : ℤ) = k := by
    rw [hk]; exact Int.mul_tdiv_cancel_left k hgZ
  have hdiv : dn / g = j := by
    rw [hj]; exact Nat.mul_div_cancel_left j (Nat.pos_of_ne_zero hg0)
  have hmain : ((k : ℚ)) / ((j : ℕ) : ℚ) = (n' : ℚ) / ((dn : ℕ) : ℚ) := by
    have hkQ : (n' : ℚ) = (g : ℚ) * (k : ℚ) := by exact_mod_cast congrArg Int.cast hk
    have hjQ : ((dn : ℕ) : ℚ) = (g : ℚ) * ((j : ℕ) : ℚ) := by exact_mod_cast congrArg Nat.cast hj
    rw [hkQ, hjQ, mul_div_mul_left _ _ hgQ]
  have hnd : (n' : ℚ) / ((dn : ℕ) : ℚ) = (n : ℚ) / (d : ℚ) := by
    by_cases hdlt : d < 0
    · have h1 : n' = -n := by rw [hnpdef, if_pos hdlt]
      have h2 : ((dn : ℕ) : ℤ) = -d := by
        rw [hdndef]; exact Int.ofNat_natAbs_of_nonpos (le_of_lt hdlt)
      have h2Q : ((dn : ℕ) : ℚ) = -(d : ℚ) := by exact_mod_cast congrArg Int.cast h2
      rw [h1, h2Q]
      push_cast
      rw [neg_div_neg_eq]
    · have h1 : n' = n := by rw [hnpdef, if_neg hdlt]
      have h2 : ((dn : ℕ) : ℤ) = d := by
        rw [hdndef]; exact Int.natAbs_of_nonneg (le_of_not_lt hdlt)
      have h2Q : ((dn : ℕ) : ℚ) = (d : ℚ) := by exact_mod_cast congrArg Int.cast h2
      rw [h1, h2Q]
  show ((Int.tdiv n' (g : ℤ) : ℤ) : ℚ) / (((dn / g - 1) + 1 : ℕ) : ℚ) = (n : ℚ) / (d : ℚ)
  rw [hsub, htdiv, hdiv, hmain, hnd]

theorem QF.toQ_add (a b : QF) : (a + b).toQ = a.toQ + b.toQ := by
  show (QF.mk' (a.num * (b.den : ℤ) + b.num * (a.den : ℤ))
    ((a.den : ℤ) * (b.den : ℤ))).toQ = _
  rw [QF.toQ_mk' _ _ (mul_ne_zero a.den_int_ne_zero b.den_int_ne_zero)]
  unfold QF.toQ
  have ha := a.den_cast_ne_zero
  have hb := b.den_cast_ne_zero
  push_cast
  field_simp

theorem QF.toQ_neg (a : QF) : (-a).toQ = -a.toQ := by
  show QF.toQ ⟨-a.num, a.dpred⟩ = -a.toQ
  unfold QF.toQ QF.den
  push_cast
  rw [neg_div]

theorem QF.toQ_sub (a b : QF) : (a - b).toQ = a.toQ - b.toQ := by
  show (a + -b).toQ = _
  rw [QF.toQ_add, QF.toQ_neg]
  ring

theorem QF.toQ_mul (a b : QF) : (a * b).toQ = a.toQ * b.toQ := by
  show (QF.mk' (a.num * b.num) ((a.den : ℤ) * (b.den : ℤ))).toQ = _
  rw [QF.toQ_mk' _ _ (mul_ne_zero a.den_int_ne_zero b.den_int_ne_zero)]
  unfold QF.toQ
  have ha := a.den_cast_ne_zero
  have hb := b.den_cast_ne_zero
  push_cast
  field_simp

theorem QF.toQ_one : (1 : QF).toQ = 1 := by
  show QF.toQ ⟨1, 0⟩ = 1
  unfold QF.toQ QF.den
  norm_num

theorem QF.mk'_normalized (n d : ℤ) : (QF.mk' n d).normalized := by
  unfold QF.mk'
  by_cases hd : d = 0
  · rw [if_pos hd]
    unfold QF.normalized QF.den
    simp
  · rw [if_neg hd]
    set n' := if d < 0 then -n else n with hnpdef
    set dn := d.natAbs with hdndef
    set g := Nat.gcd n'.natAbs dn with hgdef
    have hdn : dn ≠ 0 := Int.natAbs_ne_zero.mpr hd
    have hg0 : g ≠ 0 := fun h => hdn (Nat.eq_zero_of_gcd_eq_zero_right h)
    have hgZ : (g : ℤ) ≠ 0 := Int.natCast_ne_zero.mpr hg0
    have hgn : (g : ℤ) ∣ n' :=
      Int.dvd_natAbs.mp (Int.natCast_dvd_natCast.mpr (Nat.gcd_dvd_left _ _))
    have hgd : g ∣ dn := Nat.gcd_dvd_right _ _
    obtain ⟨k, hk⟩ := hgn
    have hdivpos : 0 < dn / g :=
      Nat.div_pos (Nat.le_of_dvd (Nat.pos_of_ne_zero hdn) hgd) (Nat.pos_of_ne_zero hg0)
    have hsub : dn / g - 1 + 1 = dn / g := Nat.sub_add_cancel hdivpos
    have htdiv : Int.tdiv n' (g : ℤ) = k := by
      rw [hk]; exact Int.mul_tdiv_cancel_left k hgZ
    have habs : n'.natAbs = g * k.natAbs := by
      rw [hk, Int.natAbs_mul, Int.natAbs_ofNat]
    have hkabs : k.natAbs = n'.natAbs / g := by
      rw [habs, Nat.mul_div_cancel_left _ (Nat.pos_of_ne_zero hg0)]
    show Nat.gcd (Int.tdiv n' (g : ℤ)).natAbs ((dn / g - 1) + 1) = 1
    rw [hsub, htdiv, hkabs]
    exact Nat.coprime_div_gcd_div_gcd (Nat.pos_of_ne_zero hg0)

theorem QF.add_normalized (a b : QF) : (a + b).normalized := QF.mk'_normalized _ _

theorem QF.mul_normalized (a b : QF) : (a * b).normalized := QF.mk'_normalized _ _

theorem QF.sub_normalized (a b : QF) : (a - b).normalized := QF.mk'_normalized _ _

theorem QF.toQ_inj {a b : QF} (ha : a.normalized) (hb : b.normalized)
    (h : a.toQ = b.toQ) : a = b := by
  unfold QF.toQ at h
  rw [div_eq_div_iff a.den_cast_ne_zero b.den_cast_ne_zero] at h
  have hZ : a.num * (b.den : ℤ) = b.num * (a.den : ℤ) := by exact_mod_cast h
  have hN : a.num.natAbs * b.den = b.num.natAbs * a.den := by
    have := congrArg Int.natAbs hZ
    simpa [Int.natAbs_mul, Int.natAbs_ofNat] using this
  have hco_a : Nat.Coprime a.den a.num.natAbs := Nat.Coprime.symm ha
  have hco_b : Nat.Coprime b.den b.num.natAbs := Nat.Coprime.symm hb
  have hdvd_ab : a.den ∣ b.den := by
    apply hco_a.dvd_of_dvd_mul_right
    rw [Nat.mul_comm b.den a.num.natAbs, hN]
    exact dvd_mul_left _ _
  have hdvd_ba : b.den ∣ a.den := by
    apply hco_b.dvd_of_dvd_mul_right
    rw [Nat.mul_comm a.den b.num.natAbs, ← hN]
    exact dvd_mul_left _ _
  have hden : a.den = b.den := Nat.dvd_antisymm hdvd_ab hdvd_ba
  have hdpred : a.dpred = b.dpred := Nat.succ_injective hden
  have hnum : a.num = b.num := by
    apply mul_right_cancel₀ a.den_int_ne_zero
    rw [hden, hZ, hden]
  cases a
  cases b
  simp only at hnum hdpred
  rw [hnum, hdpred]

/-- The algebraic identity behind the XP breakdown: subtracting the hint
penalty from the base equals applying the hint multiplier. -/
theorem qf_base_sub_penalty (a m : QF) : a - a * (1 - m) = a * m := by
  apply QF.toQ_inj (QF.sub_normalized _ _) (QF.mul_normalized _ _)
  rw [QF.toQ_sub, QF.toQ_mul, QF.toQ_sub, QF.toQ_one, QF.toQ_mul]
  ring

theorem QF.not_lt_iff {a b : QF} : ¬(a < b) ↔ b ≤ a := by
  change ¬(a.num * (b.den : ℤ) < b.num * (a.den : ℤ)) ↔
    b.num * (a.den : ℤ) ≤ a.num * (b.den : ℤ)
  exact Int.not_lt

theorem checkAlgebraicEquivalence_iff (expr1 expr2 : String) :
    checkAlgebraicEquivalence expr1 expr2 = true ↔
      monomialAgreement (parseAlgebraic expr1) (parseAlgebraic expr2) := by
  unfold checkAlgebraicEquivalence monomialAgreement
  simp only [List.all_eq_true, List.mem_dedup, List.mem_append, Bool.not_eq_true',
    decide_eq_false_iff_not]
  constructor
  · intro h k hk
    exact QF.not_lt_iff.mp (h k hk)
  · intro h k hk
    exact QF.not_lt_iff.mpr (h k hk)

-- ===========================================================================
-- Claim theorems
-- ===========================================================================

/-- C1: for every pair of input strings, `checkEquivalence` applies the
comparison tiers in strict precedence with first match winning: identical
normalized strings give `Exact`; otherwise, if both sides evaluate to
numbers with absolute difference at most the tolerance, the equivalent
`Numeric` verdict; else within `tolerance * 100`, the non-equivalent
`Numeric` verdict with `isClose = true`; else, if both normalized strings
contain a letter and the monomial maps agree on every key present in either
map within `0.0001` (missing keys counting as `0`), `Algebraic`; otherwise
`None`. -/
theorem checkEquivalence_tier_precedence (u e : String) (tol : QF) :
    (normalizeExpression u = normalizeExpression e →
      checkEquivalence u e tol = { isEquivalent := true, method := "exact" })
    ∧
    (∀ a b, normalizeExpression u ≠ normalizeExpression e →
      evaluateToNumber u = some a → evaluateToNumber e = some b →
      JSNum.leB (JSNum.abs (JSNum.sub a b)) (JSNum.fin tol) = true →
      checkEquivalence u e tol =
        { isEquivalent := true, method := "numeric",
          userValue := some a, expectedValue := some b })
    ∧
    (∀ a b, normalizeExpression u ≠ normalizeExpression e →
      evaluateToNumber u = some a → evaluateToNumber e = some b →
      JSNum.leB (JSNum.abs (JSNum.sub a b)) (JSNum.fin tol) = false →
      JSNum.leB (JSNum.abs (JSNum.sub a b)) (JSNum.fin (tol * 100)) = true →
      checkEquivalence u e tol =
        { isEquivalent := false, method := "numeric",
          userValue := some a, expectedValue := some b, isClose := some true })
    ∧
    (normalizeExpression u ≠ normalizeExpression e →
      numericTier (evaluateToNumber u) (evaluateToNumber e) tol = Option.none →
      containsLetter (normalizeExpression u) = true →
      containsLetter (normalizeExpression e) = true →
      monomialAgreement (parseAlgebraic (normalizeExpression u))
        (parseAlgebraic (normalizeExpression e)) →
      checkEquivalence u e tol = { isEquivalent := true, method := "algebraic" })
    ∧
    (normalizeExpression u ≠ normalizeExpression e →
      numericTier (evaluateToNumber u) (evaluateToNumber e) tol = Option.none →
      ¬(containsLetter (normalizeExpression u) = true ∧
        containsLetter (normalizeExpression e) = true ∧
        monomialAgreement (parseAlgebraic (normalizeExpression u))
          (parseAlgebraic (normalizeExpression e))) →
      checkEquivalence u e tol = { isEquivalent := false, method := "none" }) := by
  refine ⟨?_, ?_, ?_, ?_, ?_⟩
  · intro h
    simp [checkEquivalence, h]
  · intro a b hne hu he hle
    simp [checkEquivalence, hne, numericTier, hu, he, hle]
  · intro a b hne hu he hle hclose
    simp [checkEquivalence, hne, numericTier, hu, he, hle, hclose]
  · intro hne hnum h1 h2 hagree
    have halg : checkAlgebraicEquivalence (normalizeExpression u)
        (normalizeExpression e) = true :=
      (checkAlgebraicEquivalence_iff _ _).mpr hagree
    simp [checkEquivalence, hne, hnum, h1, h2, halg]
  · intro hne hnum hnot
    have hfalse : (containsLetter (normalizeExpression u) &&
        containsLetter (normalizeExpression e) &&
        checkAlgebraicEquivalence (normalizeExpression u) (normalizeExpression e)) =
          false := by
      cases hc : (containsLetter (normalizeExpression u) &&
          containsLetter (normalizeExpression e) &&
          checkAlgebraicEquivalence (normalizeExpression u) (normalizeExpression e)) with
      | false => rfl
      | true =>
          exfalso
          apply hnot
          simp only [Bool.and_eq_true] at hc
          exact ⟨hc.1.1, hc.1.2, (checkAlgebraicEquivalence_iff _ _).mp hc.2⟩
    simp [checkEquivalence, hne, hnum, hfalse]

/-- Witness for C1: the exact tier on `"5" = "5"`, the numeric tier on
`"1/2" = "0.5"`, and the algebraic tier on `"x+1" = "1+x"`. -/
theorem checkEquivalence_tier_precedence_witness :
    checkEquivalence "5" "5" (1 / 10000) = { isEquivalent := true, method := "exact" } ∧
    checkEquivalence "1/2" "0.5" (1 / 10000) =
      { isEquivalent := true, method := "numeric",
        userValue := some (JSNum.fin (1 / 2)), expectedValue := some (JSNum.fin (1 / 2)) } ∧
    checkEquivalence "x+1" "1+x" (1 / 100) = { isEquivalent := true, method := "algebraic" } :=
  ⟨(checkEquivalence_tier_precedence "5" "5" (1 / 10000)).1 rfl,
   (checkEquivalence_tier_precedence "1/2" "0.5" (1 / 10000)).2.1 (JSNum.fin (1 / 2))
     (JSNum.fin (1 / 2)) (by decide) (by decide) (by decide) (by decide),
   (checkEquivalence_tier_precedence "x+1" "1+x" (1 / 100)).2.2.2.1 (by decide) (by decide)
     (by decide) (by decide) (by decide)⟩

/-- C2: the safety gate of `evaluateToNumber` is bypassed by the code: the
rewritten form of `"sqrt(4)+x"` is not a simple fraction and does not match
the restricted character set, yet the generic `new Function` evaluator is
still invoked on it, because the gate also accepts any string that merely
contains `Math.` followed by a word character.  (The evaluation then throws
inside JS and the result is `null`.) -/
theorem evaluateToNumber_gate_bypass :
    invokesGenericEval "sqrt(4)+x" = true ∧
    isSimpleFraction (rewrittenForm "sqrt(4)+x") = false ∧
    passesCharsetGate (rewrittenForm "sqrt(4)+x") = false ∧
    containsMathWord (rewrittenForm "sqrt(4)+x").data = true ∧
    evaluateToNumber "sqrt(4)+x" = Option.none := by decide

/-- C3: malformed question data is scored instead of rejected with a client
error: a step-by-step question with no steps array is scored as correct
(with full XP), and a free-form question with no expected answer is scored
against the empty string; neither produces a 4xx error. -/
theorem malformed_question_scored_not_rejected :
    (handleEvaluateAnswer reqMissingSteps).isClientError = false ∧
    ((handleEvaluateAnswer reqMissingSteps).respOf).map EvalResponse.isCorrect = some true ∧
    ((handleEvaluateAnswer reqMissingSteps).respOf).map EvalResponse.xpEarned = some 50 ∧
    (handleEvaluateAnswer reqMissingExpected).isClientError = false ∧
    ((handleEvaluateAnswer reqMissingExpected).respOf).map EvalResponse.isCorrect =
      some false := by decide

/-- C4 counterexample: at difficulty 1 with one hint used, the reported
breakdown has `base = 10` and `hintPenalty = -2` (independently rounded),
whose rounded sum is 8, while the reported `total` is 9 — so `total` is not
the round of the sum of the components as reported. -/
theorem xp_total_not_round_of_reported_sum :
    ((handleEvaluateAnswer reqRoundingGap).respOf).map EvalResponse.xpBreakdown =
      some { base := 10, hintPenalty := -2, timePenalty := 0,
             timeBonus := some 0, streakBonus := some 0,
             equivalenceBonus := some 0, total := 9 } ∧
    jsRound (10 + -2 + 0 + 0 + 0) = 8 ∧
    ¬(jsRound (10 + -2 + 0 + 0 + 0) = (9 : QF)) := by decide

/-- C4 (amended): for every correct-answer evaluation, the XP total is the
round of the exact (unrounded) component sum
`base + hintPenalty + timeBonus + streakBonus + equivalenceBonus` (with the
hint penalty as a negative contribution); the components reported in the
breakdown are rounded independently of the total. -/
theorem xp_total_eq_round_of_raw_sum (baseXp : QF) (difficulty : Option QF)
    (hintsUsed : Option ℕ) (timeSpent : Option QF) (correctStreak : Option QF)
    (equiv : EquivOut) :
    (computeXP baseXp difficulty hintsUsed timeSpent correctStreak equiv).totalXp =
      jsRound (baseXp
        - (computeXP baseXp difficulty hintsUsed timeSpent correctStreak equiv).hintPenaltyRaw
        + (computeXP baseXp difficulty hintsUsed timeSpent correctStreak equiv).timeBonusRaw
        + (computeXP baseXp difficulty hintsUsed timeSpent correctStreak equiv).streakBonusRaw
        + (computeXP baseXp difficulty hintsUsed timeSpent correctStreak
            equiv).equivalenceBonusRaw) := by
  simp only [computeXP]
  rw [qf_base_sub_penalty]

/-- C5: the end-to-end scenario difficulty 5, no hints, 10 s spent, streak
5, algebraic equivalence: multiplier 1 on base 50, +10 time bonus (60),
+30 streak bonus (90), +5 equivalence bonus, total exactly 95 — both in the
scoring chain and in the handler response. -/
theorem xp_scenario_difficulty5_total_95 :
    (computeXP 50 (some 5) (some 0) (some 10) (some 5)
      (EquivOut.single { isEquivalent := true, method := "algebraic" })).hintMult = 1 ∧
    (computeXP 50 (some 5) (some 0) (some 10) (some 5)
      (EquivOut.single { isEquivalent := true, method := "algebraic" })).timeBonusRaw = 10 ∧
    (computeXP 50 (some 5) (some 0) (some 10) (some 5)
      (EquivOut.single { isEquivalent := true, method := "algebraic" })).streakBonusRaw = 30 ∧
    (computeXP 50 (some 5) (some 0) (some 10) (some 5)
      (EquivOut.single
        { isEquivalent := true, method := "algebraic" })).equivalenceBonusRaw = 5 ∧
    (computeXP 50 (some 5) (some 0) (some 10) (some 5)
      (EquivOut.single { isEquivalent := true, method := "algebraic" })).totalXp = 95 ∧
    ((handleEvaluateAnswer reqScenario95).respOf).map EvalResponse.xpEarned = some 95 ∧
    ((handleEvaluateAnswer reqScenario95).respOf).map EvalResponse.xpBreakdown =
      some { base := 50, hintPenalty := 0, timePenalty := 0, timeBonus := some 10,
             streakBonus := some 30, equivalenceBonus := some 5, total := 95 } := by
  decide

/-- C6: for every step-by-step question the overall `isCorrect` is the
conjunction of the per-step `correct` flags; the concrete 3-step question
with exactly one wrong step reports `isCorrect = false` and exactly one
`StepResult` with `correct = false`. -/
theorem step_correctness_is_conjunction :
    (∀ qd ua, qd.type = QType.stepByStep →
      ((phase1 qd ua).isCorrect = true ↔
        ∀ r ∈ evaluateStepByStep qd ua, r.correct = true)) ∧
    (phase1 qdThreeSteps uaThreeSteps).isCorrect = false ∧
    ((evaluateStepByStep qdThreeSteps uaThreeSteps).filter
      (fun r => !r.correct)).length = 1 ∧
    ((handleEvaluateAnswer reqThreeSteps).respOf).map EvalResponse.isCorrect =
      some false := by
  refine ⟨?_, by decide, by decide, by decide⟩
  intro qd ua h
  simp [phase1, h, List.all_eq_true]

/-- Witness for C6: the equivalence instantiated at the concrete 3-step
question. -/
theorem step_correctness_is_conjunction_witness :
    (phase1 qdThreeSteps uaThreeSteps).isCorrect = true ↔
      ∀ r ∈ evaluateStepByStep qdThreeSteps uaThreeSteps, r.correct = true :=
  step_correctness_is_conjunction.1 qdThreeSteps uaThreeSteps rfl

/-- C7: for the wrong answer `"2"` against expected `"4"`, the detector
returns both the factor-omitted misconception (ratio `0.5`) and the
power/root-confusion misconception (`2 = sqrt 4`) — and nothing else. -/
theorem misconceptions_2_4_factor_and_power :
    (detectMisconceptions "2" "4").map Misconception.id =
      ["factor_error", "power_error"] ∧
    (∃ m ∈ detectMisconceptions "2" "4", m.id = "factor_error") ∧
    (∃ m ∈ detectMisconceptions "2" "4", m.id = "power_error") := by decide

/-- C8: a misconception predicate that throws is treated as no match: it
contributes nothing to the detection loop and all remaining catalog entries
are still evaluated; `detectMisconceptions` is this loop on the fixed
catalog. -/
theorem detectLoop_throwing_predicate_skipped
    (l₁ l₂ : List MisconceptionPattern) (p : MisconceptionPattern) (u e : String)
    (h : p.check u e = Except.error ()) :
    detectLoop (l₁ ++ p :: l₂) u e = detectLoop l₁ u e ++ detectLoop l₂ u e ∧
    detectMisconceptions u e = detectLoop MISCONCEPTIONS u e := by
  refine ⟨?_, rfl⟩
  induction l₁ with
  | nil => simp [detectLoop, h]
  | cons q rest ih =>
      cases hq : q.check u e with
      | error err => simp [detectLoop, hq, ih]
      | ok b => cases b <;> simp [detectLoop, hq, ih]

/-- Witness for C8: a throwing entry inserted in the middle of the actual
catalog is skipped while both halves still run. -/
theorem detectLoop_throwing_predicate_skipped_witness :
    detectLoop (MISCONCEPTIONS.take 2 ++ throwingPattern :: MISCONCEPTIONS.drop 2) "2" "4" =
      detectLoop (MISCONCEPTIONS.take 2) "2" "4" ++
        detectLoop (MISCONCEPTIONS.drop 2) "2" "4" :=
  (detectLoop_throwing_predicate_skipped (MISCONCEPTIONS.take 2) (MISCONCEPTIONS.drop 2)
    throwingPattern "2" "4" rfl).1

/-- C9: the determinism requirement fails on the code.  The
`Math.`-containment gate (the same slip as in `evaluateToNumber_gate_bypass`)
admits identifier-bearing payloads to `new Function`, which evaluates in
the realm's mutable global environment.  The payload below survives the
rewrite verbatim (only `sqrt` becomes `Math.sqrt`), fails the whitelist,
and reaches the evaluator, global assignment included: in sloppy-mode JS
its first evaluation in a realm sees `typeof zz = "undefined"` (length 9),
assigns the global `zz = 1` and returns `1`, while the second sees
`"number"` and returns `zz + 1 = 2` — so two identical requests receive
different verdicts and rewards.  The theorem evaluates the (pure) string
pipeline of the embedding at that failing input. -/
theorem determinism_defeated_by_gate_bypass :
    rewrittenForm "sqrt(0)+(zz=(typeof(zz)).length==9?1:zz+1)" =
      "Math.sqrt(0)+(zz=(typeof(zz)).length==9?1:zz+1)" ∧
    invokesGenericEval "sqrt(0)+(zz=(typeof(zz)).length==9?1:zz+1)" = true ∧
    passesCharsetGate
      (rewrittenForm "sqrt(0)+(zz=(typeof(zz)).length==9?1:zz+1)") = false ∧
    isSimpleFraction
      (rewrittenForm "sqrt(0)+(zz=(typeof(zz)).length==9?1:zz+1)") = false := by
  decide

/-- C10: a supplied tolerance of `0` (or an absent tolerance) is replaced
by the default `0.01` before the equivalence check, both for free-form and
numeric questions and for each step of a step-by-step question; the
effective tolerance is never zero, so a caller cannot request a strictly
zero tolerance. -/
theorem tolerance_falsy_defaulted :
    effectiveTolerance (some 0) = 1 / 100 ∧
    effectiveTolerance Option.none = 1 / 100 ∧
    (∀ t : Option QF, (effectiveTolerance t).isZero = false) ∧
    (∀ q : QF, q.isZero = false → effectiveTolerance (some q) = q) ∧
    (∀ qd ua, qd.type = QType.freeForm ∨ qd.type = QType.numeric →
      (phase1 qd ua).equivalenceResult = EquivOut.single
        (checkEquivalence (userAnswerString ua)
          (jsOrStr qd.correctAnswer (jsOrStr qd.expectedAnswer ""))
          (effectiveTolerance qd.tolerance))) ∧
    (∀ ua index step, (stepEval ua index step).correct =
      (checkEquivalence (userStepAnswerString ua index) step.expectedAnswer
        (effectiveTolerance step.tolerance)).isEquivalent) := by
  refine ⟨by decide, by decide, ?_, ?_, ?_, ?_⟩
  · intro t
    cases t with
    | none => decide
    | some q =>
        show (jsOrNum (some q) (1 / 100)).isZero = false
        unfold jsOrNum
        cases hz : q.isZero with
        | true => simp only [hz, if_true]; decide
        | false => simp only [hz, if_false]; exact hz
  · intro q hq
    show jsOrNum (some q) (1 / 100) = q
    unfold jsOrNum
    simp [hq]
  · intro qd ua h
    rcases h with h | h <;> simp [phase1, h, freeFormEval, effectiveTolerance]
  · intro ua index step
    rfl

/-- Witness for C10: a non-zero tolerance is kept, and the numeric question
that requests tolerance `0` is checked with the default. -/
theorem tolerance_falsy_defaulted_witness :
    effectiveTolerance (some (QF.mk' 1 2)) = QF.mk' 1 2 ∧
    (phase1 qdZeroTolerance (UserAnswer.str "3")).equivalenceResult = EquivOut.single
      (checkEquivalence (userAnswerString (UserAnswer.str "3"))
        (jsOrStr qdZeroTolerance.correctAnswer (jsOrStr qdZeroTolerance.expectedAnswer ""))
        (effectiveTolerance qdZeroTolerance.tolerance)) :=
  ⟨tolerance_falsy_defaulted.2.2.2.1 (QF.mk' 1 2) (by decide),
   tolerance_falsy_defaulted.2.2.2.2.1 qdZeroTolerance (UserAnswer.str "3") (Or.inr rfl)⟩
